import Mathlib

/-!
Verification development for the Lookout screen-cloak service.

The repository holds four near-identical revisions of one class:
`Service` in gnome/lookout@mirolang.org/extension.ts, `Cloak` in the first
unnamed file, and two `Service` revisions in the second unnamed file (the
two differ only in member naming, underscore prefixes versus the `private`
keyword, so one embedding covers both).  Each class keeps a two-valued
status flag, attaches or detaches a dimming effect on an actor, toggles
compositor unredirection, tracks pointer visibility, and republishes its
status over a session bus.

The embedding below is shallow: every method becomes a Lean function on an
explicit state, and every call into an external collaborator (compositor,
actor, cursor tracker, bus export) is recorded both in a `World` record and
as an event in a trace of `Call` values, in the order the source issues the
calls.
-/

namespace Lookout

/-- Status of the screen, the TypeScript enum `Status` with its wire values
visible = 0 and hidden = 1. -/
inductive Status where
  | visible
  | hidden
deriving DecidableEq, Repr

/-- Wire-level numeric encoding of `Status` (the enum values 0 and 1). -/
def Status.toNat : Status → Nat
  | .visible => 0
  | .hidden => 1

/-- Swapped status, used only to state the Toggle claim. -/
def Status.swap : Status → Status
  | .visible => .hidden
  | .hidden => .visible

/-- One call into an external collaborator, recorded in source order. -/
inductive Call where
  | disableUnredirect
  | enableUnredirect
  | addEffect
  | removeEffect
  | connectVisibility (id : Nat)
  | disconnectVisibility (id : Nat)
  | setPointerVisible (b : Bool)
  | notifyStatus (value : Nat)
  | unexportObject
  | unownName
deriving DecidableEq, Repr

/-- True exactly on `Status` property-changed notifications. -/
def Call.isNotify : Call → Bool
  | .notifyStatus _ => true
  | _ => false

/-- True exactly on visibility-changed subscription creations. -/
def Call.isConnect : Call → Bool
  | .connectVisibility _ => true
  | _ => false

/-- True exactly on visibility-changed subscription cancellations. -/
def Call.isDisconnect : Call → Bool
  | .disconnectVisibility _ => true
  | _ => false

/-- State of the external collaborators the service drives: the stage actor
(effect attachment), the compositor (unredirect), and the cursor tracker
(pointer visibility plus its set of live signal connections).  GObject
signal connections are handed out as ids starting at 1; id 0 is the
"no handler" sentinel the source uses as the initial `cursorWatcherId`. -/
structure World where
  effectAttached : Bool
  unredirectDisabled : Bool
  pointerVisible : Bool
  activeSubscriptions : List Nat
  nextHandlerId : Nat
deriving DecidableEq, Repr

/-- Member state shared by all revisions of the class: `status`,
`cursorWatcherId` (0 until the first Hide), whether the DBus export object
has been created (`_exportedObject` is set in onBusAcquired), whether it is
currently exported on the connection, and whether the well-known-name
registration from the constructor is still held. -/
structure Service where
  status : Status
  cursorWatcherId : Nat
  exportCreated : Bool
  exportPublished : Bool
  nameOwned : Bool
deriving DecidableEq, Repr

/-- A service together with the collaborator state it drives. -/
structure MState where
  service : Service
  world : World
deriving DecidableEq, Repr

/-- Dim-effect parameters fixed at construction in extension.ts:
`set_brightness_full(-0.5, 0, 0)` with `set_contrast(0)`. -/
def extDimBrightness : Rat × Rat × Rat := (-1/2, 0, 0)

/-- Dim-effect parameters fixed at construction in the Cloak revision and in
both part_001 revisions: `set_brightness(-1)` with `set_contrast(0)`. -/
def cloakDimBrightness : Rat × Rat × Rat := (-1, -1, -1)

/-- Collaborator state at service construction: nothing attached, no
subscription, unredirect enabled; the tracker will hand out id 1 first.
The initial pointer visibility is external; `true` is used here and the
pointer-callback claims quantify over it explicitly. -/
def initWorld : World :=
  { effectAttached := false
    unredirectDisabled := false
    pointerVisible := true
    activeSubscriptions := []
    nextHandlerId := 1 }

/-- Constructor of `Service` in extension.ts.  Its last parameter is
`status = Status.visible`, an optional argument defaulting to visible; the
constructor stores the handles, builds the effect once, and registers
well-known-name ownership (modelled as `nameOwned := true`).  It neither
attaches the effect nor subscribes to the tracker. -/
def Service.construct (status : Status) : Service :=
  { status := status
    cursorWatcherId := 0
    exportCreated := false
    exportPublished := false
    nameOwned := true }

/-- A freshly constructed service (explicit initial status) with fresh
collaborator state. -/
def initMStateWith (status : Status) : MState :=
  { service := Service.construct status, world := initWorld }

/-- The service as constructed at every construction site in the repository:
the `status` parameter left at its default `Status.visible`. -/
def initMState : MState := initMStateWith Status.visible

/-- Method `Hide()` of `Service` in extension.ts (lines 92 to 106): when
visible, set status to hidden, disable unredirect, attach the effect,
connect the visibility-changed handler (storing the new id), force the
pointer invisible, and emit a `Status` property-changed notification on the
export object if one exists (`this._exportedObject?.`); otherwise do
nothing. -/
def Hide (m : MState) : MState × List Call :=
  if m.service.status = Status.visible then
    let id := m.world.nextHandlerId
    ({ service := { m.service with status := Status.hidden, cursorWatcherId := id }
       world := { m.world with
         unredirectDisabled := true
         effectAttached := true
         activeSubscriptions := id :: m.world.activeSubscriptions
         nextHandlerId := m.world.nextHandlerId + 1
         pointerVisible := false } },
     [Call.disableUnredirect, Call.addEffect, Call.connectVisibility id,
       Call.setPointerVisible false] ++
       (if m.service.exportCreated then
         [Call.notifyStatus (Status.toNat Status.hidden)] else []))
  else (m, [])

/-- Method `Reveal()` of `Service` in extension.ts (lines 108 to 119): when
hidden, set status to visible, re-enable unredirect, remove the effect,
disconnect the stored handler id, and emit a `Status` notification if the
export object exists.  The source never resets `_cursorWatcherId` to 0. -/
def Reveal (m : MState) : MState × List Call :=
  if m.service.status = Status.hidden then
    ({ service := { m.service with status := Status.visible }
       world := { m.world with
         unredirectDisabled := false
         effectAttached := false
         activeSubscriptions :=
           m.world.activeSubscriptions.filter
             (fun i => i != m.service.cursorWatcherId) } },
     [Call.enableUnredirect, Call.removeEffect,
       Call.disconnectVisibility m.service.cursorWatcherId] ++
       (if m.service.exportCreated then
         [Call.notifyStatus (Status.toNat Status.visible)] else []))
  else (m, [])

/-- Callback `onBusAcquired`: wraps the object in a DBus export and exports
it at the object path, so the export now exists and is published. -/
def onBusAcquired (m : MState) : MState :=
  { m with service := { m.service with exportCreated := true, exportPublished := true } }

/-- Method `close()` (lines 79 to 84): calls `Reveal()` unconditionally,
unexports the export object if one exists (`this._exportedObject?.`), and
releases the well-known-name registration with `bus_unown_name`. -/
def close (m : MState) : MState × List Call :=
  let r := Reveal m
  let m1 := r.1
  if m1.service.exportCreated then
    ({ m1 with service := { m1.service with exportPublished := false, nameOwned := false } },
     r.2 ++ [Call.unexportObject, Call.unownName])
  else
    ({ m1 with service := { m1.service with nameOwned := false } },
     r.2 ++ [Call.unownName])

/-- Property getter `Status` (lines 87 to 89): returns the current status
wrapped as an unsigned 32-bit variant (`GLib.Variant.new_uint32`), modelled
by its numeric payload; the getter only reads and returns. -/
def StatusGet (m : MState) : Nat × MState :=
  (Status.toNat m.service.status, m)

/-- Modelled from the spec: `Toggle()` is described in section 4.1 as present
in later revisions of the service, but it is absent from every revision under
src/.  Per the spec it invokes Reveal if currently Hidden, else Hide, as pure
dispatch with no additional state. -/
def Toggle (m : MState) : MState × List Call :=
  if m.service.status = Status.hidden then Reveal m else Hide m

/-- Callback `onVisibilityChanged` (extension.ts lines 39 to 43): if the
tracker reports the pointer visible, force it invisible with exactly one
`set_pointer_visible(false)` call; otherwise do nothing. -/
def onVisibilityChanged (w : World) : World × List Call :=
  if w.pointerVisible then
    ({ w with pointerVisible := false }, [Call.setPointerVisible false])
  else (w, [])

/-- Delivery of a pointer visibility-changed event: the tracker now reports
visibility `pv`; the callback runs exactly when the service holds a live
subscription on the tracker. -/
def fireVisibilityChanged (m : MState) (pv : Bool) : MState × List Call :=
  let w0 := { m.world with pointerVisible := pv }
  if w0.activeSubscriptions = [] then ({ m with world := w0 }, [])
  else
    let r := onVisibilityChanged w0
    ({ m with world := r.1 }, r.2)

/-- External events driving the service: the two IPC methods, the
spec-modelled Toggle, and bus acquisition. -/
inductive Op where
  | hide
  | reveal
  | toggle
  | busAcquired
deriving DecidableEq, Repr

/-- One event applied to the service state, with its trace of external
calls. -/
def step (m : MState) : Op → MState × List Call
  | .hide => Hide m
  | .reveal => Reveal m
  | .toggle => Toggle m
  | .busAcquired => (onBusAcquired m, [])

/-- State after a sequence of events. -/
def runOps : MState → List Op → MState
  | m, [] => m
  | m, op :: ops => runOps (step m op).1 ops

/-- State reached from the freshly constructed service by a sequence of
events. -/
def reach (ops : List Op) : MState := runOps initMState ops

/-- The Hide and Reveal method calls, the alphabet of the cross-revision
equivalence claim. -/
inductive HR where
  | hide
  | reveal
deriving DecidableEq, Repr

/-- One Hide or Reveal call on the extension.ts revision. -/
def stepHR (m : MState) : HR → MState × List Call
  | .hide => Hide m
  | .reveal => Reveal m

/-- Status after each call of a Hide and Reveal sequence, extension.ts
revision. -/
def statusesHR : MState → List HR → List Status
  | _, [] => []
  | m, op :: ops => (stepHR m op).1.service.status :: statusesHR (stepHR m op).1 ops

/-- Concatenated external-call trace of a Hide and Reveal sequence,
extension.ts revision. -/
def traceHR : MState → List HR → List Call
  | _, [] => []
  | m, op :: ops => (stepHR m op).2 ++ traceHR (stepHR m op).1 ops

/-- Extension.ts start state, with or without the bus already acquired. -/
def startWith (b : Bool) : MState :=
  if b then onBusAcquired initMState else initMState

namespace Cloak

/-- Constructor of `Cloak` in the first unnamed file (part_000, lines 37 to
60): always starts visible (it has no status parameter), stores the handles,
builds the effect once with `set_brightness(-1)`, and registers name
ownership. -/
def construct : Service :=
  { status := Status.visible
    cursorWatcherId := 0
    exportCreated := false
    exportPublished := false
    nameOwned := true }

/-- A freshly constructed Cloak with fresh collaborator state. -/
def startState : MState := { service := construct, world := initWorld }

/-- Method `Hide()` of `Cloak` (part_000 lines 165 to 184): same statements
as the extension.ts revision. -/
def Hide (m : MState) : MState × List Call :=
  if m.service.status = Status.visible then
    let id := m.world.nextHandlerId
    ({ service := { m.service with status := Status.hidden, cursorWatcherId := id }
       world := { m.world with
         unredirectDisabled := true
         effectAttached := true
         activeSubscriptions := id :: m.world.activeSubscriptions
         nextHandlerId := m.world.nextHandlerId + 1
         pointerVisible := false } },
     [Call.disableUnredirect, Call.addEffect, Call.connectVisibility id,
       Call.setPointerVisible false] ++
       (if m.service.exportCreated then
         [Call.notifyStatus (Status.toNat Status.hidden)] else []))
  else (m, [])

/-- Method `Reveal()` of `Cloak` (part_000 lines 195 to 214): same
statements as the extension.ts revision; `cursorWatcherId` is likewise
never reset. -/
def Reveal (m : MState) : MState × List Call :=
  if m.service.status = Status.hidden then
    ({ service := { m.service with status := Status.visible }
       world := { m.world with
         unredirectDisabled := false
         effectAttached := false
         activeSubscriptions :=
           m.world.activeSubscriptions.filter
             (fun i => i != m.service.cursorWatcherId) } },
     [Call.enableUnredirect, Call.removeEffect,
       Call.disconnectVisibility m.service.cursorWatcherId] ++
       (if m.service.exportCreated then
         [Call.notifyStatus (Status.toNat Status.visible)] else []))
  else (m, [])

/-- Callback `onBusAcquired` of `Cloak`: creates and exports the object. -/
def busAcquired (m : MState) : MState :=
  { m with service := { m.service with exportCreated := true, exportPublished := true } }

/-- Property getter `Status` of `Cloak` (part_000 lines 153 to 156): logs
and returns `this.status`, the raw numeric enum value. -/
def StatusGet (m : MState) : Nat × MState :=
  (Status.toNat m.service.status, m)

/-- One Hide or Reveal call on the Cloak revision. -/
def stepHR (m : MState) : HR → MState × List Call
  | .hide => Hide m
  | .reveal => Reveal m

/-- Status after each call of a Hide and Reveal sequence, Cloak revision. -/
def statusesHR : MState → List HR → List Status
  | _, [] => []
  | m, op :: ops => (stepHR m op).1.service.status :: statusesHR (stepHR m op).1 ops

/-- Concatenated external-call trace, Cloak revision. -/
def traceHR : MState → List HR → List Call
  | _, [] => []
  | m, op :: ops => (stepHR m op).2 ++ traceHR (stepHR m op).1 ops

/-- Cloak start state, with or without the bus already acquired. -/
def startWith (b : Bool) : MState :=
  if b then busAcquired startState else startState

end Cloak

namespace ServiceP1

/-- Constructor of the two `Service` revisions in the second unnamed file
(part_001); the two revisions differ only in member naming (underscore
prefixes versus the `private` keyword), so one embedding covers both.  Both
always start visible and build the effect with `set_brightness(-1)`. -/
def construct : Service :=
  { status := Status.visible
    cursorWatcherId := 0
    exportCreated := false
    exportPublished := false
    nameOwned := true }

/-- A freshly constructed part_001 service with fresh collaborator state. -/
def startState : MState := { service := construct, world := initWorld }

/-- Method `Hide()` of the part_001 revisions: same statements as the
extension.ts revision. -/
def Hide (m : MState) : MState × List Call :=
  if m.service.status = Status.visible then
    let id := m.world.nextHandlerId
    ({ service := { m.service with status := Status.hidden, cursorWatcherId := id }
       world := { m.world with
         unredirectDisabled := true
         effectAttached := true
         activeSubscriptions := id :: m.world.activeSubscriptions
         nextHandlerId := m.world.nextHandlerId + 1
         pointerVisible := false } },
     [Call.disableUnredirect, Call.addEffect, Call.connectVisibility id,
       Call.setPointerVisible false] ++
       (if m.service.exportCreated then
         [Call.notifyStatus (Status.toNat Status.hidden)] else []))
  else (m, [])

/-- Method `Reveal()` of the part_001 revisions: same statements as the
extension.ts revision; `cursorWatcherId` is likewise never reset. -/
def Reveal (m : MState) : MState × List Call :=
  if m.service.status = Status.hidden then
    ({ service := { m.service with status := Status.visible }
       world := { m.world with
         unredirectDisabled := false
         effectAttached := false
         activeSubscriptions :=
           m.world.activeSubscriptions.filter
             (fun i => i != m.service.cursorWatcherId) } },
     [Call.enableUnredirect, Call.removeEffect,
       Call.disconnectVisibility m.service.cursorWatcherId] ++
       (if m.service.exportCreated then
         [Call.notifyStatus (Status.toNat Status.visible)] else []))
  else (m, [])

/-- Callback `onBusAcquired` of the part_001 revisions. -/
def busAcquired (m : MState) : MState :=
  { m with service := { m.service with exportCreated := true, exportPublished := true } }

/-- One Hide or Reveal call on the part_001 revisions. -/
def stepHR (m : MState) : HR → MState × List Call
  | .hide => Hide m
  | .reveal => Reveal m

/-- Status after each call of a Hide and Reveal sequence, part_001
revisions. -/
def statusesHR : MState → List HR → List Status
  | _, [] => []
  | m, op :: ops => (stepHR m op).1.service.status :: statusesHR (stepHR m op).1 ops

/-- Concatenated external-call trace, part_001 revisions. -/
def traceHR : MState → List HR → List Call
  | _, [] => []
  | m, op :: ops => (stepHR m op).2 ++ traceHR (stepHR m op).1 ops

/-- The part_001 start state, with or without the bus already acquired. -/
def startWith (b : Bool) : MState :=
  if b then busAcquired startState else startState

end ServiceP1

/-- Method-call alphabet of the spec fold claim: Hide, Reveal, Toggle. -/
inductive MOp where
  | hide
  | reveal
  | toggle
deriving DecidableEq, Repr

/-- Embeds a method call into the event alphabet. -/
def MOp.toOp : MOp → Op
  | .hide => Op.hide
  | .reveal => Op.reveal
  | .toggle => Op.toggle

/-- Spec-side transition rules, written from the words of the spec (section
8): Hide maps Visible to Hidden and is otherwise unchanged; Reveal maps
Hidden to Visible and is otherwise unchanged; Toggle swaps. -/
def specStep (s : Status) : MOp → Status
  | .hide => if s = Status.visible then Status.hidden else s
  | .reveal => if s = Status.hidden then Status.visible else s
  | .toggle => s.swap

/-- Reachability invariant: the tracker hands out positive handler ids;
a published export was created; while hidden, the one live subscription is
exactly the stored watcher id (which is nonzero) and the effect is attached;
while visible, no subscription is live and the effect is detached. -/
def Inv (m : MState) : Prop :=
  1 ≤ m.world.nextHandlerId ∧
  (m.service.exportPublished = true → m.service.exportCreated = true) ∧
  (m.service.status = Status.hidden →
    m.world.activeSubscriptions = [m.service.cursorWatcherId] ∧
    m.service.cursorWatcherId ≠ 0 ∧
    m.world.effectAttached = true) ∧
  (m.service.status = Status.visible →
    m.world.activeSubscriptions = [] ∧
    m.world.effectAttached = false)

/-! Helper lemmas: the invariant holds initially and is preserved by every
event, hence at every reachable state. -/

lemma inv_init : Inv initMState := by
  unfold Inv
  refine ⟨by decide, by decide, ?_, ?_⟩
  · intro h
    exact absurd h (by decide)
  · intro _
    exact ⟨rfl, rfl⟩

lemma inv_Hide {m : MState} (h : Inv m) : Inv (Hide m).1 := by
  obtain ⟨h1, h2, h3, h4⟩ := h
  by_cases hv : m.service.status = Status.visible
  · obtain ⟨hs, he⟩ := h4 hv
    simp only [Inv, Hide, hv, if_true]
    refine ⟨by omega, h2, ?_, ?_⟩
    · intro _
      refine ⟨by simp [hs], by omega, by trivial⟩
    · intro hc
      exact absurd hc (by simp)
  · simp only [Hide, hv, if_false]
    exact ⟨h1, h2, h3, h4⟩

lemma inv_Reveal {m : MState} (h : Inv m) : Inv (Reveal m).1 := by
  obtain ⟨h1, h2, h3, h4⟩ := h
  by_cases hh : m.service.status = Status.hidden
  · obtain ⟨hs, hid, he⟩ := h3 hh
    simp only [Inv, Reveal, hh, if_true]
    refine ⟨h1, h2, ?_, ?_⟩
    · intro hc
      exact absurd hc (by simp)
    · intro _
      exact ⟨by simp [hs], by trivial⟩
  · simp only [Reveal, hh, if_false]
    exact ⟨h1, h2, h3, h4⟩

lemma inv_Toggle {m : MState} (h : Inv m) : Inv (Toggle m).1 := by
  unfold Toggle
  by_cases hh : m.service.status = Status.hidden
  · simp only [hh, if_true]
    exact inv_Reveal h
  · simp only [hh, if_false]
    exact inv_Hide h

lemma inv_busAcquired {m : MState} (h : Inv m) : Inv (onBusAcquired m) := by
  obtain ⟨h1, h2, h3, h4⟩ := h
  exact ⟨h1, fun _ => rfl, h3, h4⟩

lemma inv_step {m : MState} (op : Op) (h : Inv m) : Inv (step m op).1 := by
  cases op
  · exact inv_Hide h
  · exact inv_Reveal h
  · exact inv_Toggle h
  · exact inv_busAcquired h

lemma inv_runOps : ∀ (ops : List Op) (m : MState), Inv m → Inv (runOps m ops)
  | [], _, h => h
  | op :: ops, m, h => inv_runOps ops (step m op).1 (inv_step op h)

lemma inv_reach (ops : List Op) : Inv (reach ops) :=
  inv_runOps ops initMState inv_init

/-- Every single event moves the status exactly as the spec-side rule does. -/
lemma status_step_eq (m : MState) (op : MOp) :
    (step m op.toOp).1.service.status = specStep m.service.status op := by
  cases op <;> cases hs : m.service.status <;>
    simp [step, MOp.toOp, Hide, Reveal, Toggle, specStep, Status.swap, hs]

/-- Running a method sequence folds the spec-side rule over the sequence. -/
lemma run_status_fold (ops : List MOp) : ∀ (m : MState),
    (runOps m (ops.map MOp.toOp)).service.status =
      ops.foldl specStep m.service.status := by
  induction ops with
  | nil => intro m; rfl
  | cons op ops ih =>
    intro m
    simp only [List.map, runOps, List.foldl]
    rw [ih, status_step_eq]

/-- The Cloak revision and the extension.ts revision take identical steps. -/
lemma cloak_stepHR_eq (m : MState) (op : HR) : Cloak.stepHR m op = stepHR m op := by
  cases op <;> rfl

/-- The part_001 revisions and the extension.ts revision take identical
steps. -/
lemma p1_stepHR_eq (m : MState) (op : HR) : ServiceP1.stepHR m op = stepHR m op := by
  cases op <;> rfl

lemma cloak_statusesHR_eq : ∀ (ops : List HR) (m : MState),
    Cloak.statusesHR m ops = statusesHR m ops
  | [], _ => rfl
  | op :: ops, m => by
    simp only [Cloak.statusesHR, statusesHR, cloak_stepHR_eq]
    rw [cloak_statusesHR_eq ops]

lemma cloak_traceHR_eq : ∀ (ops : List HR) (m : MState),
    Cloak.traceHR m ops = traceHR m ops
  | [], _ => rfl
  | op :: ops, m => by
    simp only [Cloak.traceHR, traceHR, cloak_stepHR_eq]
    rw [cloak_traceHR_eq ops]

lemma p1_statusesHR_eq : ∀ (ops : List HR) (m : MState),
    ServiceP1.statusesHR m ops = statusesHR m ops
  | [], _ => rfl
  | op :: ops, m => by
    simp only [ServiceP1.statusesHR, statusesHR, p1_stepHR_eq]
    rw [p1_statusesHR_eq ops]

lemma p1_traceHR_eq : ∀ (ops : List HR) (m : MState),
    ServiceP1.traceHR m ops = traceHR m ops
  | [], _ => rfl
  | op :: ops, m => by
    simp only [ServiceP1.traceHR, traceHR, p1_stepHR_eq]
    rw [p1_traceHR_eq ops]

/-- C1 (amended): after every event sequence from a service constructed in
the initial Visible state, a live visibility-change subscription exists at
the cursor tracker if and only if status is Hidden, and the dim effect is
attached to the surface if and only if status is Hidden.  The literal claim
reads presence off the stored handle field, which Reveal never clears; see
the counterexample below. -/
theorem subscription_active_and_effect_iff_hidden (ops : List Op) :
    ((reach ops).world.activeSubscriptions ≠ [] ↔
      (reach ops).service.status = Status.hidden) ∧
    ((reach ops).world.effectAttached = true ↔
      (reach ops).service.status = Status.hidden) := by
  obtain ⟨h1, h2, h3, h4⟩ := inv_reach ops
  cases hs : (reach ops).service.status
  · obtain ⟨ha, he⟩ := h4 hs
    constructor
    · simp [ha, hs]
    · simp [he, hs]
  · obtain ⟨ha, hid, he⟩ := h3 hs
    constructor
    · simp [ha, hs]
    · simp [he, hs]

/-- C1 (counterexample): after Hide then Reveal the status is Visible, yet
the stored watcher-id field still holds 1 because `Reveal` disconnects the
handler without resetting `_cursorWatcherId` to 0, so the stored handle is
non-null while status is Visible and the claimed equivalence fails on the
handle field. -/
theorem stale_watcher_id_after_reveal :
    (reach [Op.hide, Op.reveal]).service.status = Status.visible ∧
    (reach [Op.hide, Op.reveal]).service.cursorWatcherId = 1 ∧
    ¬(((reach [Op.hide, Op.reveal]).service.cursorWatcherId ≠ 0) ↔
       (reach [Op.hide, Op.reveal]).service.status = Status.hidden) := by
  decide

/-- C2: for every finite sequence of Hide, Reveal and Toggle invocations on
a freshly constructed service, the final status equals the fold of the
no-op-aware spec transition rules over the sequence, starting from Visible.
Toggle is modelled from the spec since it is absent from src. -/
theorem status_after_calls_eq_spec_fold (ops : List MOp) :
    (runOps initMState (ops.map MOp.toOp)).service.status =
      List.foldl specStep Status.visible ops :=
  run_status_fold ops initMState

/-- C3 (amended): calling Hide twice in a row from any reachable Visible
state produces exactly one effect-attach, one redirect-disable, one
subscription creation, and one Status notification when the DBus export
object exists (zero before the bus is acquired); the second call is a
complete no-op, returning the state unchanged with an empty trace.
Symmetrically for Reveal twice from a Hidden state. -/
theorem hide_reveal_idempotent (ops : List Op) :
    ((reach ops).service.status = Status.visible →
      ((Hide (reach ops)).2 ++ (Hide (Hide (reach ops)).1).2).count Call.addEffect = 1 ∧
      ((Hide (reach ops)).2 ++ (Hide (Hide (reach ops)).1).2).count Call.disableUnredirect = 1 ∧
      (((Hide (reach ops)).2 ++ (Hide (Hide (reach ops)).1).2).filter Call.isConnect).length = 1 ∧
      (((Hide (reach ops)).2 ++ (Hide (Hide (reach ops)).1).2).filter Call.isNotify).length =
        (if (reach ops).service.exportCreated = true then 1 else 0) ∧
      Hide (Hide (reach ops)).1 = ((Hide (reach ops)).1, [])) ∧
    ((reach ops).service.status = Status.hidden →
      ((Reveal (reach ops)).2 ++ (Reveal (Reveal (reach ops)).1).2).count Call.removeEffect = 1 ∧
      ((Reveal (reach ops)).2 ++ (Reveal (Reveal (reach ops)).1).2).count Call.enableUnredirect = 1 ∧
      (((Reveal (reach ops)).2 ++ (Reveal (Reveal (reach ops)).1).2).filter Call.isDisconnect).length = 1 ∧
      (((Reveal (reach ops)).2 ++ (Reveal (Reveal (reach ops)).1).2).filter Call.isNotify).length =
        (if (reach ops).service.exportCreated = true then 1 else 0) ∧
      Reveal (Reveal (reach ops)).1 = ((Reveal (reach ops)).1, [])) := by
  constructor
  · intro h
    have h1 : (Hide (reach ops)).1.service.status = Status.hidden := by
      simp [Hide, h]
    have hnoop : Hide (Hide (reach ops)).1 = ((Hide (reach ops)).1, []) := by
      rw [Hide, if_neg]
      simp [h1]
    rw [hnoop]
    cases hc : (reach ops).service.exportCreated <;>
      simp [Hide, h, hc, Call.isNotify, Call.isConnect, Status.toNat,
        List.count_cons, List.count_append]
  · intro h
    have h1 : (Reveal (reach ops)).1.service.status = Status.visible := by
      simp [Reveal, h]
    have hnoop : Reveal (Reveal (reach ops)).1 = ((Reveal (reach ops)).1, []) := by
      rw [Reveal, if_neg]
      simp [h1]
    rw [hnoop]
    cases hc : (reach ops).service.exportCreated <;>
      simp [Reveal, h, hc, Call.isNotify, Call.isDisconnect, Status.toNat,
        List.count_cons, List.count_append]

/-- C3 (witness): instantiates the idempotence theorem after bus
acquisition, from Visible for the Hide part and from Hidden for the Reveal
part. -/
theorem hide_reveal_idempotent_witness :
    Hide (Hide (reach [Op.busAcquired])).1 = ((Hide (reach [Op.busAcquired])).1, []) ∧
    Reveal (Reveal (reach [Op.busAcquired, Op.hide])).1 =
      ((Reveal (reach [Op.busAcquired, Op.hide])).1, []) :=
  ⟨((hide_reveal_idempotent [Op.busAcquired]).1 (by decide)).2.2.2.2,
   ((hide_reveal_idempotent [Op.busAcquired, Op.hide]).2 (by decide)).2.2.2.2⟩

/-- C3 (counterexample): on the freshly constructed service the DBus export
does not exist yet, so Hide twice from Visible emits zero Status
notifications, not the exactly one the claim states. -/
theorem hide_twice_without_export_unnotified :
    ((Hide initMState).2 ++ (Hide (Hide initMState).1).2).filter Call.isNotify = [] ∧
    (((Hide initMState).2 ++ (Hide (Hide initMState).1).2).filter Call.isNotify).length ≠ 1 := by
  decide

/-- C4 (amended): once the DBus export object exists, every Hide from
Visible emits exactly one Status notification carrying 1 and every Reveal
from Hidden emits exactly one carrying 0; before the bus is acquired a
successful transition emits none; and a no-op invocation changes nothing
and emits nothing. -/
theorem notifications_exactly_on_transitions (ops : List Op) :
    ((reach ops).service.status = Status.visible →
      (Hide (reach ops)).2.filter Call.isNotify =
        (if (reach ops).service.exportCreated = true
          then [Call.notifyStatus 1] else []) ∧
      (Hide (reach ops)).1.service.status = Status.hidden) ∧
    ((reach ops).service.status = Status.hidden → Hide (reach ops) = (reach ops, [])) ∧
    ((reach ops).service.status = Status.hidden →
      (Reveal (reach ops)).2.filter Call.isNotify =
        (if (reach ops).service.exportCreated = true
          then [Call.notifyStatus 0] else []) ∧
      (Reveal (reach ops)).1.service.status = Status.visible) ∧
    ((reach ops).service.status = Status.visible → Reveal (reach ops) = (reach ops, [])) := by
  refine ⟨?_, ?_, ?_, ?_⟩
  · intro h
    cases hc : (reach ops).service.exportCreated <;>
      simp [Hide, h, hc, Call.isNotify, Status.toNat]
  · intro h
    simp [Hide, h]
  · intro h
    cases hc : (reach ops).service.exportCreated <;>
      simp [Reveal, h, hc, Call.isNotify, Status.toNat]
  · intro h
    simp [Reveal, h]

/-- C4 (witness): instantiates the notification theorem after bus
acquisition, from Visible for the transition part and from Hidden for the
no-op part. -/
theorem notifications_exactly_on_transitions_witness :
    ((reach [Op.busAcquired]).service.status = Status.visible ∧
      (Hide (reach [Op.busAcquired])).2.filter Call.isNotify =
        (if (reach [Op.busAcquired]).service.exportCreated = true
          then [Call.notifyStatus 1] else [])) ∧
    ((reach [Op.busAcquired, Op.hide]).service.status = Status.hidden ∧
      Hide (reach [Op.busAcquired, Op.hide]) = (reach [Op.busAcquired, Op.hide], [])) :=
  ⟨⟨by decide, ((notifications_exactly_on_transitions [Op.busAcquired]).1 (by decide)).1⟩,
   ⟨by decide, (notifications_exactly_on_transitions [Op.busAcquired, Op.hide]).2.1 (by decide)⟩⟩

/-- C4 (counterexample): on the freshly constructed service, Hide performs
the transition to Hidden and yet emits zero Status notifications, because
`this._exportedObject?.emit_property_changed` is skipped while the export
object does not exist. -/
theorem hide_without_export_transitions_silently :
    (Hide initMState).1.service.status = Status.hidden ∧
    (Hide initMState).2.filter Call.isNotify = [] ∧
    ((Hide initMState).2.filter Call.isNotify).length ≠ 1 := by
  decide

/-- C5: from every reachable state, Visible or Hidden, close() leaves the
status Visible, the dim effect detached, no live subscription at the
tracker, the IPC export unpublished, and the well-known-name registration
released. -/
theorem close_restores_clean_state (ops : List Op) :
    (close (reach ops)).1.service.status = Status.visible ∧
    (close (reach ops)).1.world.effectAttached = false ∧
    (close (reach ops)).1.world.activeSubscriptions = [] ∧
    (close (reach ops)).1.service.exportPublished = false ∧
    (close (reach ops)).1.service.nameOwned = false := by
  obtain ⟨h1, h2, h3, h4⟩ := inv_reach ops
  have hr : (Reveal (reach ops)).1.service.status = Status.visible ∧
      (Reveal (reach ops)).1.world.effectAttached = false ∧
      (Reveal (reach ops)).1.world.activeSubscriptions = [] ∧
      (Reveal (reach ops)).1.service.exportPublished =
        (reach ops).service.exportPublished ∧
      (Reveal (reach ops)).1.service.exportCreated =
        (reach ops).service.exportCreated := by
    cases hs : (reach ops).service.status
    · obtain ⟨ha, he⟩ := h4 hs
      simp [Reveal, hs, ha, he]
    · obtain ⟨ha, hid, he⟩ := h3 hs
      simp [Reveal, hs, ha]
  obtain ⟨hs1, he1, ha1, hp1, hc1⟩ := hr
  cases hcr : (Reveal (reach ops)).1.service.exportCreated
  · have hpub : (reach ops).service.exportPublished = false := by
      cases hp : (reach ops).service.exportPublished
      · rfl
      · rw [hcr] at hc1
        exact absurd (h2 hp) (by rw [← hc1]; simp)
    simp [close, hcr, hs1, he1, ha1, hp1, hpub]
  · simp [close, hcr, hs1, he1, ha1]

/-- C6: in every reachable state, Toggle invokes Reveal when the status is
Hidden and Hide otherwise, and it swaps the status; it is pure dispatch
with no state of its own.  Toggle is modelled from the spec since it is
absent from src. -/
theorem toggle_dispatches (ops : List Op) :
    ((reach ops).service.status = Status.hidden →
      Toggle (reach ops) = Reveal (reach ops)) ∧
    ((reach ops).service.status = Status.visible →
      Toggle (reach ops) = Hide (reach ops)) ∧
    (Toggle (reach ops)).1.service.status = (reach ops).service.status.swap := by
  refine ⟨fun h => by simp [Toggle, h], fun h => by simp [Toggle, h], ?_⟩
  cases hs : (reach ops).service.status
  · simp [Toggle, Hide, hs, Status.swap]
  · simp [Toggle, Reveal, hs, Status.swap]

/-- C6 (witness): instantiates the dispatch theorem in a Hidden state and in
the initial Visible state. -/
theorem toggle_dispatches_witness :
    (Toggle (reach [Op.hide]) = Reveal (reach [Op.hide])) ∧
    (Toggle (reach []) = Hide (reach [])) :=
  ⟨(toggle_dispatches [Op.hide]).1 (by decide),
   (toggle_dispatches []).2.1 (by decide)⟩

/-- C7: in every reachable state the Status read accessor returns the
wire-level numeric encoding of the current status, 0 exactly when Visible
and 1 exactly when Hidden, a value below 2^32, and it returns the state
unchanged; the Cloak revision returns the same number (unwrapped rather
than as a uint32 variant) and is equally pure. -/
theorem status_read_wire_encoding (ops : List Op) :
    ((StatusGet (reach ops)).1 = 0 ↔ (reach ops).service.status = Status.visible) ∧
    ((StatusGet (reach ops)).1 = 1 ↔ (reach ops).service.status = Status.hidden) ∧
    (StatusGet (reach ops)).1 < 2 ^ 32 ∧
    (StatusGet (reach ops)).2 = reach ops ∧
    (Cloak.StatusGet (reach ops)).1 = (StatusGet (reach ops)).1 ∧
    (Cloak.StatusGet (reach ops)).2 = reach ops := by
  cases hs : (reach ops).service.status <;>
    simp [StatusGet, Cloak.StatusGet, Status.toNat, hs]

/-- C8: in every reachable Hidden state the subscription is live, so a
pointer visibility-changed event reporting the pointer visible makes the
callback issue exactly one set-pointer-invisible call, and an event
reporting it already invisible makes the callback issue no call at all. -/
theorem visibility_callback_forces_invisible (ops : List Op)
    (h : (reach ops).service.status = Status.hidden) :
    (fireVisibilityChanged (reach ops) true).2 = [Call.setPointerVisible false] ∧
    (fireVisibilityChanged (reach ops) false).2 = [] := by
  obtain ⟨h1, h2, h3, h4⟩ := inv_reach ops
  obtain ⟨ha, hid, he⟩ := h3 h
  constructor <;> simp [fireVisibilityChanged, onVisibilityChanged, ha]

/-- C8 (witness): instantiates the callback theorem in the Hidden state
reached by one Hide. -/
theorem visibility_callback_forces_invisible_witness :
    (fireVisibilityChanged (reach [Op.hide]) true).2 = [Call.setPointerVisible false] ∧
    (fireVisibilityChanged (reach [Op.hide]) false).2 = [] :=
  visibility_callback_forces_invisible [Op.hide] (by decide)

/-- C9 (amended): every service constructed with the initial status left at
its default, which is what every construction site in the repository does
and the only possibility for the Cloak and part_001 revisions, starts
Visible with watcher id 0, no subscription and no effect attached; and no
constructor, whatever its status argument, creates a subscription or
attaches the effect. -/
theorem default_construction_initial_state :
    initMState.service.status = Status.visible ∧
    initMState.service.cursorWatcherId = 0 ∧
    initMState.world.activeSubscriptions = [] ∧
    initMState.world.effectAttached = false ∧
    Cloak.startState.service.status = Status.visible ∧
    Cloak.startState.world.activeSubscriptions = [] ∧
    Cloak.startState.world.effectAttached = false ∧
    ServiceP1.startState.service.status = Status.visible ∧
    (∀ st : Status, (initMStateWith st).service.cursorWatcherId = 0 ∧
      (initMStateWith st).world.activeSubscriptions = [] ∧
      (initMStateWith st).world.effectAttached = false) := by
  refine ⟨rfl, rfl, rfl, rfl, rfl, rfl, rfl, rfl, ?_⟩
  intro st
  exact ⟨rfl, rfl, rfl⟩

/-- C9 (counterexample): the extension.ts constructor takes an optional
initial status defaulting to Visible, so a service constructed with the
explicit argument `Status.hidden` starts Hidden, refuting the claim that
every newly constructed service has status Visible. -/
theorem construction_with_hidden_override :
    (initMStateWith Status.hidden).service.status = Status.hidden ∧
    (initMStateWith Status.hidden).service.status ≠ Status.visible := by
  decide

/-- C10: on the status state machine, the extension.ts Service, the Cloak
revision and the part_001 Service revisions are behaviorally equivalent:
from their initial states, with or without the bus already acquired, every
Hide and Reveal sequence yields the same status after every call and the
identical external-call trace, hence Status notifications at the same
points. -/
theorem revisions_status_machine_equivalent (b : Bool) (ops : List HR) :
    Cloak.statusesHR (Cloak.startWith b) ops = statusesHR (startWith b) ops ∧
    Cloak.traceHR (Cloak.startWith b) ops = traceHR (startWith b) ops ∧
    ServiceP1.statusesHR (ServiceP1.startWith b) ops = statusesHR (startWith b) ops ∧
    ServiceP1.traceHR (ServiceP1.startWith b) ops = traceHR (startWith b) ops := by
  have hcs : Cloak.startWith b = startWith b := by cases b <;> rfl
  have hps : ServiceP1.startWith b = startWith b := by cases b <;> rfl
  rw [hcs, hps, cloak_statusesHR_eq, cloak_traceHR_eq, p1_statusesHR_eq, p1_traceHR_eq]
  exact ⟨rfl, rfl, rfl, rfl⟩

end Lookout
